import Mathlib

/-!
Verification development for the grant-matcherator matching core.

The definitions below are a shallow embedding of the Go/SQL source:

- `backend/services/matches/matches.go` — `CalculateAndStoreMatches`
  (the stored-match recompute pipeline over the `temp_matches` table) and
  `GetStoredMatches` (the listing query).
- `backend/handlers/connection/handlers.go` — `DismissMatchHandler` and
  `CreateConnectionHandler`.
- `backend/handlers/connection/queries.go` — the five-factor
  `GetPotentialMatchesQuery` (sector / target-group / budget / timeline /
  stage scores).

SQL float arithmetic is modelled with `ℚ` (exact division, division by the
SQL `NULL`-producing `NULLIF(x, 0)` is modelled by an explicit zero test),
SQL `NULL`-able columns with `Option`, and the relevant tables with lists.
HTTP handler outcomes are modelled as a status code paired with the
post-transaction database state.
-/

namespace Matcherator

/-- A row of the `profiles` table; only the columns the matching engine
reads are modelled.  `sectors` and `target_groups` are nullable Postgres
text arrays. -/
structure ProfileRow where
  user_id : Nat
  sectors : Option (List String)
  target_groups : Option (List String)
deriving DecidableEq, Repr

/-- A row of the `users` table (the columns the match queries read). -/
structure UserRow where
  id : Nat
  role : String
  status : String
deriving DecidableEq, Repr

/-- A row of the `temp_matches` table: the stored candidate score of
`match_id` for subject `user_id`. -/
structure MatchRow where
  user_id : Nat
  match_id : Nat
  match_score : ℚ
deriving DecidableEq, Repr

/-- The database state the matching core reads and writes.
`provider_data` / `recipient_data` hold the user ids that have a row in
the corresponding role-data table (the match query only uses those rows
as an inner-join existence filter).  `connections` rows are
(initiator_id, target_id) pairs. -/
structure State where
  users : List UserRow
  profiles : List ProfileRow
  provider_data : List Nat
  recipient_data : List Nat
  dismissed : List (Nat × Nat)
  connections : List (Nat × Nat)
  temp_matches : List MatchRow
deriving DecidableEq, Repr

/-- True when `connections` holds a row linking `a` and `b` in either direction —
the `NOT EXISTS`/`CheckConnectionExistsQuery` condition
`(initiator_id = a AND target_id = b) OR (initiator_id = b AND target_id = a)`. -/
def connectedEither (st : State) (a b : Nat) : Prop :=
  ∃ c ∈ st.connections, (c.1 = a ∧ c.2 = b) ∨ (c.1 = b ∧ c.2 = a)

instance (st : State) (a b : Nat) : Decidable (connectedEither st a b) := by
  unfold connectedEither; infer_instance

/-- One additive term of the stored match score in
`CalculateAndStoreMatches`:
`COALESCE((SELECT COUNT(*) FROM UNNEST(cand) s WHERE s = ANY(subj))::float
 / NULLIF((SELECT COUNT(*) FROM UNNEST(subj) s), 0), 0) * 30`.
`cand` is the candidate profile array (`p1`), `subj` the subject profile
array (`p2`); a `NULL` array unnests to no rows, and a zero subject count
makes the quotient `NULL`, coalesced to 0. -/
def fracScore (cand subj : Option (List String)) : ℚ :=
  match subj with
  | none => 0
  | some sl =>
      if sl.length = 0 then 0
      else (((cand.getD []).countP (fun x => decide (x ∈ sl)) : ℚ) / (sl.length : ℚ)) * 30

/-- The stored match score of `CalculateAndStoreMatches` for candidate
profile `p1` and subject profile `p2`: the sector term plus the
target-group term (each worth up to 30 points). -/
def scoreFor (p1 p2 : ProfileRow) : ℚ :=
  fracScore p1.sectors p2.sectors + fracScore p1.target_groups p2.target_groups

/-- The SQL array-overlap test `a && b` guarded by `IS NOT NULL` checks:
true when both arrays are non-`NULL` and share an element. -/
def arrOverlap : Option (List String) → Option (List String) → Bool
  | some a, some b => a.any (fun x => decide (x ∈ b))
  | _, _ => false

/-- The positive-signal gate of `CalculateAndStoreMatches`:
sector arrays overlap or target-group arrays overlap. -/
def gateB (p1 p2 : ProfileRow) : Bool :=
  arrOverlap p1.sectors p2.sectors || arrOverlap p1.target_groups p2.target_groups

/-- The final `WHERE` conjuncts of `CalculateAndStoreMatches` that depend
only on the two profiles: the positive-signal gate and the
`match_score >= 30` threshold. -/
def includeCond (p1 p2 : ProfileRow) : Bool :=
  gateB p1 p2 && decide ((30 : ℚ) ≤ scoreFor p1 p2)

/-- The per-candidate `WHERE` conditions of `CalculateAndStoreMatches`
that do not look at profile arrays: opposite role, active status, a
role-data row exists, the subject has not dismissed the candidate, and
the pair is not connected in either direction. -/
def candidateOK (st : State) (uid : Nat) (userRole : String) (u : UserRow) : Bool :=
  (if userRole = "provider" then u.role == "recipient" && st.recipient_data.contains u.id
   else u.role == "provider" && st.provider_data.contains u.id)
  && u.status == "active"
  && !(decide ((uid, u.id) ∈ st.dismissed))
  && !(decide (connectedEither st uid u.id))

/-- The rows `CalculateAndStoreMatches` inserts for one candidate user
`u`: the join over the candidate profile rows (`p1 ON u.id = p1.user_id`)
and subject profile rows (`p2 ON p2.user_id = $1`), kept when the gate
and threshold conditions pass. -/
def pairRows (st : State) (uid : Nat) (u : UserRow) : List MatchRow :=
  (st.profiles.filter (fun p => p.user_id == u.id)).flatMap (fun p1 =>
    (st.profiles.filter (fun p => p.user_id == uid)).filterMap (fun p2 =>
      if includeCond p1 p2 then some ⟨uid, u.id, scoreFor p1 p2⟩ else none))

/-- All rows the `INSERT INTO temp_matches ... SELECT` of
`CalculateAndStoreMatches` produces for subject `uid` with role
`userRole`. -/
def computeRows (st : State) (uid : Nat) (userRole : String) : List MatchRow :=
  (st.users.filter (candidateOK st uid userRole)).flatMap (pairRows st uid)

/-- The recompute `CalculateAndStoreMatches` (matches.go): the transaction drops and
recreates the whole `temp_matches` table, then inserts the freshly
computed rows for the one subject — so the post-state match table holds
exactly the subject's new rows. -/
def CalculateAndStoreMatches (st : State) (uid : Nat) (userRole : String) : State :=
  { st with temp_matches := computeRows st uid userRole }

/-- The handler `DismissMatchHandler` (handlers.go): inside one transaction it inserts
(user, target) into `dismissed_matches` — whose primary key makes a
duplicate insert fail, surfaced as HTTP 500 with the transaction rolled
back — then deletes the row from `temp_matches`; if that delete affects
no row it answers 404 and the deferred rollback undoes the insert,
otherwise it commits and answers 204.  The result is the HTTP status code
paired with the committed state. -/
def DismissMatchHandler (st : State) (uid targetID : Nat) : Nat × State :=
  if (uid, targetID) ∈ st.dismissed then (500, st)
  else if st.temp_matches.any (fun m => m.user_id == uid && m.match_id == targetID) then
    (204, { st with
              dismissed := (uid, targetID) :: st.dismissed,
              temp_matches := st.temp_matches.filter
                (fun m => !(m.user_id == uid && m.match_id == targetID)) })
  else (404, st)

/-- The handler `CreateConnectionHandler` (handlers.go): if
`CheckConnectionExistsQuery` finds a row in either direction it answers
409 Conflict without inserting; otherwise it inserts the
(initiator, target) row and deletes the pair from `temp_matches` in both
directions, answering 200 with the created connection. -/
def CreateConnectionHandler (st : State) (uid targetID : Nat) : Nat × State :=
  if connectedEither st uid targetID then (409, st)
  else (200, { st with
                 connections := st.connections ++ [(uid, targetID)],
                 temp_matches := st.temp_matches.filter
                   (fun m => !((m.user_id == uid && m.match_id == targetID) ||
                               (m.user_id == targetID && m.match_id == uid))) })

/-- The operations of the candidate-set core whose interplay the
exclusion invariant is about: recompute, dismiss, connect. -/
inductive Op where
  | recompute (uid : Nat) (userRole : String)
  | dismiss (uid targetID : Nat)
  | connect (uid targetID : Nat)
deriving DecidableEq, Repr

/-- State transition of one operation (the handlers' committed state). -/
def applyOp (st : State) : Op → State
  | .recompute uid userRole => CalculateAndStoreMatches st uid userRole
  | .dismiss uid targetID => (DismissMatchHandler st uid targetID).2
  | .connect uid targetID => (CreateConnectionHandler st uid targetID).2

/-- Run a sequence of operations left to right. -/
def applyOps (st : State) (ops : List Op) : State :=
  ops.foldl applyOp st

/-- The exclusion invariant: no stored candidate row points at a
candidate its subject has dismissed or is connected to (either
direction). -/
def Inv (st : State) : Prop :=
  ∀ m ∈ st.temp_matches,
    (m.user_id, m.match_id) ∉ st.dismissed ∧ ¬ connectedEither st m.user_id m.match_id

/-- The listing `GetStoredMatches` (matches.go) runs
`SELECT ... FROM temp_matches tm ... WHERE tm.user_id = $1
 ORDER BY tm.match_score DESC`.
The SQL order key is the score alone, so any result list that is a
permutation of the subject's stored rows and is nonincreasing in score is
a possible answer; this relation characterises the possible outputs. -/
def GetStoredMatchesResult (st : State) (uid : Nat) (out : List MatchRow) : Prop :=
  out.Perm (st.temp_matches.filter (fun m => m.user_id == uid)) ∧
  out.Sorted (fun a b => b.match_score ≤ a.match_score)

/-- The fully deterministic order the spec claims for listings:
strictly descending score, with equal scores ordered by ascending
candidate id. -/
def specListingOrder (out : List MatchRow) : Prop :=
  out.Sorted (fun a b =>
    b.match_score < a.match_score ∨
    (a.match_score = b.match_score ∧ a.match_id < b.match_id))

/-- The `sector_score` column of `GetPotentialMatchesQuery` (queries.go):
`CASE WHEN p.sectors && r.sectors THEN
   CARDINALITY(ARRAY(SELECT UNNEST(p.sectors) INTERSECT SELECT UNNEST(r.sectors)))::float
   / GREATEST(CARDINALITY(p.sectors), CARDINALITY(r.sectors))::float * 100
 ELSE 0 END`.
SQL `INTERSECT` deduplicates, hence the `dedup` on the left array. -/
def sector_score (a b : Option (List String)) : ℚ :=
  match a, b with
  | some al, some bl =>
      if al.any (fun x => decide (x ∈ bl)) then
        (((al.dedup.filter (fun x => decide (x ∈ bl))).length : ℚ) /
          ((max al.length bl.length : Nat) : ℚ)) * 100
      else 0
  | _, _ => 0

/-- The `target_group_score` column of `GetPotentialMatchesQuery`: the
same CASE expression applied to the `target_groups` arrays. -/
def target_group_score (a b : Option (List String)) : ℚ :=
  match a, b with
  | some al, some bl =>
      if al.any (fun x => decide (x ∈ bl)) then
        (((al.dedup.filter (fun x => decide (x ∈ bl))).length : ℚ) /
          ((max al.length bl.length : Nat) : ℚ)) * 100
      else 0
  | _, _ => 0

/-- The `budget_score` column of `GetPotentialMatchesQuery`:
`CASE WHEN COALESCE(p.amount_offered, 0) >= COALESCE(r.budget_requested, 0) THEN 100
 ELSE COALESCE(p.amount_offered, 0)::float
      / NULLIF(COALESCE(r.budget_requested, 0), 0)::float * 100 END`.
`none` models a SQL `NULL` result (the `NULLIF` divisor being zero). -/
def budget_score (amount_offered budget_requested : Option ℚ) : Option ℚ :=
  let a := amount_offered.getD 0
  let b := budget_requested.getD 0
  if b ≤ a then some 100
  else if b = 0 then none
  else some (a / b * 100)

/-- The composite `match_score` of `GetPotentialMatchesQuery`:
`sector_score * 0.3 + target_group_score * 0.3 + budget_score * 0.2 +
 timeline_score * 0.1 + stage_score * 0.1`. -/
def match_score_composite (ss tg bs ts sg : ℚ) : ℚ :=
  ss * (3 / 10) + tg * (3 / 10) + bs * (2 / 10) + ts * (1 / 10) + sg * (1 / 10)

/-- Modelled from the spec's words (§4.1 factor table), for comparison
with the source's `sector_score`: the factor is
`card(A ∩ B) / max (card A) (card B)` scaled to 0–100, and 0 when either
set is empty. -/
def specOverlapFactor (A B : Finset String) : ℚ :=
  if A = ∅ ∨ B = ∅ then 0
  else (((A ∩ B).card : ℚ) / ((max A.card B.card : Nat) : ℚ)) * 100

/-! ## Helper lemmas -/

/-- Every row the recompute query produces belongs to the recompute's
subject, is neither dismissed by nor connected to that subject, and
carries a score at or above the 30-point threshold. -/
theorem of_mem_computeRows {st : State} {uid : Nat} {userRole : String} {m : MatchRow}
    (hm : m ∈ computeRows st uid userRole) :
    m.user_id = uid ∧ (uid, m.match_id) ∉ st.dismissed ∧
      ¬ connectedEither st uid m.match_id ∧ 30 ≤ m.match_score := by
  unfold computeRows at hm
  rw [List.mem_flatMap] at hm
  obtain ⟨u, hu, hpair⟩ := hm
  rw [List.mem_filter] at hu
  obtain ⟨_, hok⟩ := hu
  unfold pairRows at hpair
  rw [List.mem_flatMap] at hpair
  obtain ⟨p1, _, hp2⟩ := hpair
  rw [List.mem_filterMap] at hp2
  obtain ⟨p2, _, hcond⟩ := hp2
  rcases hic : includeCond p1 p2 with _ | _
  · rw [hic] at hcond
    simp at hcond
  · rw [hic] at hcond
    simp at hcond
    simp only [candidateOK, Bool.and_eq_true, Bool.not_eq_true', decide_eq_false_iff_not]
      at hok
    simp only [includeCond, Bool.and_eq_true, decide_eq_true_eq] at hic
    subst hcond
    exact ⟨rfl, hok.1.2, hok.2, hic.2⟩

/-- Counting common elements is symmetric for duplicate-free lists: both
directions count the elements of the set intersection. -/
theorem countP_mem_comm (a b : List String) (ha : a.Nodup) (hb : b.Nodup) :
    a.countP (fun x => decide (x ∈ b)) = b.countP (fun x => decide (x ∈ a)) := by
  rw [List.countP_eq_length_filter, List.countP_eq_length_filter]
  have hfa : (a.filter (fun x => decide (x ∈ b))).toFinset = a.toFinset ∩ b.toFinset := by
    ext x
    simp [List.mem_filter]
  have hfb : (b.filter (fun x => decide (x ∈ a))).toFinset = b.toFinset ∩ a.toFinset := by
    ext x
    simp [List.mem_filter]
  have hna : (a.filter (fun x => decide (x ∈ b))).Nodup := ha.filter _
  have hnb : (b.filter (fun x => decide (x ∈ a))).Nodup := hb.filter _
  rw [← List.toFinset_card_of_nodup hna, ← List.toFinset_card_of_nodup hnb, hfa, hfb,
    Finset.inter_comm]

/-- One overlap term of the stored score is symmetric once the two arrays
are duplicate-free and equally long (the denominators then agree and the
numerators count the same intersection). -/
theorem fracScore_comm (x y : Option (List String))
    (hx : (x.getD []).Nodup) (hy : (y.getD []).Nodup)
    (hlen : (x.getD []).length = (y.getD []).length) :
    fracScore x y = fracScore y x := by
  cases x with
  | none =>
      cases y with
      | none => rfl
      | some yl => simp [fracScore]
  | some xl =>
      cases y with
      | none => simp [fracScore]
      | some yl =>
          simp only [Option.getD] at hx hy hlen
          simp only [fracScore, hlen, Option.getD]
          rcases Nat.eq_zero_or_pos yl.length with h0 | hpos
          · simp [h0]
          · rw [if_neg (by omega), if_neg (by omega)]
            rw [countP_mem_comm xl yl hx hy]

/-! ## C1: symmetry of the stored match score -/

/-- C1 counterexample: the stored score formula of
`CalculateAndStoreMatches` is not symmetric.  With profile A having
sector set {x} and profile B having sector set {x, y} (no target
groups), the score stored for subject A about candidate B is 30, while
the score stored for subject B about candidate A is 15 (each direction
divides the shared-sector count by the subject's own sector count). -/
theorem storedScore_not_symmetric :
    scoreFor ⟨2, some ["x", "y"], none⟩ ⟨1, some ["x"], none⟩ = 30 ∧
    scoreFor ⟨1, some ["x"], none⟩ ⟨2, some ["x", "y"], none⟩ = 15 ∧
    scoreFor ⟨2, some ["x", "y"], none⟩ ⟨1, some ["x"], none⟩ ≠
      scoreFor ⟨1, some ["x"], none⟩ ⟨2, some ["x", "y"], none⟩ := by
  refine ⟨?_, ?_, ?_⟩
  · simp [scoreFor, fracScore]
  · simp [scoreFor, fracScore]
    norm_num
  · simp [scoreFor, fracScore]

/-- C1 (amended): the stored score normalises each overlap by the
subject's own set size, so the two directions agree exactly in the
special case where the two duplicate-free profiles have sector sets of
equal size and target-group sets of equal size. -/
theorem storedScore_symm_of_equal_sizes (pa pb : ProfileRow)
    (hsa : (pa.sectors.getD []).Nodup) (hsb : (pb.sectors.getD []).Nodup)
    (hta : (pa.target_groups.getD []).Nodup) (htb : (pb.target_groups.getD []).Nodup)
    (hslen : (pa.sectors.getD []).length = (pb.sectors.getD []).length)
    (htlen : (pa.target_groups.getD []).length = (pb.target_groups.getD []).length) :
    scoreFor pa pb = scoreFor pb pa := by
  unfold scoreFor
  rw [fracScore_comm pa.sectors pb.sectors hsa hsb hslen,
    fracScore_comm pa.target_groups pb.target_groups hta htb htlen]

/-- C1 witness: the amended symmetry theorem applied to two concrete
profiles with one sector and one target group each. -/
theorem storedScore_symm_witness :
    scoreFor ⟨1, some ["x"], some ["u"]⟩ ⟨2, some ["y"], some ["u"]⟩ =
      scoreFor ⟨2, some ["y"], some ["u"]⟩ ⟨1, some ["x"], some ["u"]⟩ :=
  storedScore_symm_of_equal_sizes ⟨1, some ["x"], some ["u"]⟩ ⟨2, some ["y"], some ["u"]⟩
    (by decide) (by decide) (by decide) (by decide) (by decide) (by decide)

/-! ## C2: recompute destroys other subjects' rows (code bug) -/

/-- C2: `CalculateAndStoreMatches` drops and recreates the whole
`temp_matches` table, so after a recompute for one subject every other
subject's stored candidate rows are gone — contradicting the claim (and
the code's own `RecalculateMatchesForAllUsers`, whose per-user loop
would leave only the last user with matches). -/
theorem recompute_erases_other_subjects (st : State) (uid : Nat) (userRole : String)
    (other : Nat) (h : other ≠ uid) :
    (CalculateAndStoreMatches st uid userRole).temp_matches.filter
      (fun m => m.user_id == other) = [] := by
  rw [List.filter_eq_nil_iff]
  intro m hm
  have huid := (of_mem_computeRows hm).1
  simp [huid, h.symm]

/-- C2 witness: in a state where subject 1 has a stored candidate row,
recomputing for subject 2 leaves subject 1 with no rows at all. -/
theorem recompute_erases_witness :
    (⟨[], [], [], [], [], [], [⟨1, 5, 42⟩]⟩ : State).temp_matches.filter
        (fun m => m.user_id == 1) = [⟨1, 5, 42⟩] ∧
    (CalculateAndStoreMatches ⟨[], [], [], [], [], [], [⟨1, 5, 42⟩]⟩ 2 "provider").temp_matches.filter
        (fun m => m.user_id == 1) = [] :=
  ⟨by decide, recompute_erases_other_subjects ⟨[], [], [], [], [], [], [⟨1, 5, 42⟩]⟩ 2 "provider" 1
    (by decide)⟩

/-! ## C6: threshold boundary uses a greater-or-equal comparison -/

/-- C6: the stored-match pipeline compares the composite against the
threshold 30 with `>=`: a profile pair that passes the positive-signal
gate and scores exactly 30 satisfies the insertion condition, a pair
scoring strictly below 30 never does, and every row the recompute query
emits carries a score of at least 30. -/
theorem threshold_boundary :
    (∀ p1 p2 : ProfileRow, gateB p1 p2 = true → scoreFor p1 p2 = 30 →
      includeCond p1 p2 = true) ∧
    (∀ p1 p2 : ProfileRow, scoreFor p1 p2 < 30 → includeCond p1 p2 = false) ∧
    (∀ (st : State) (uid : Nat) (userRole : String) (m : MatchRow),
      m ∈ computeRows st uid userRole → 30 ≤ m.match_score) := by
  refine ⟨?_, ?_, ?_⟩
  · intro p1 p2 hg hs
    simp [includeCond, hg, hs]
  · intro p1 p2 hs
    simp [includeCond, not_le.mpr hs]
  · intro st uid userRole m hm
    exact (of_mem_computeRows hm).2.2.2

/-- C6 witness: a pair scoring exactly 30 (half the subject's two
sectors and half its two target groups shared) passes the insertion
condition, and a pair scoring 20 does not. -/
theorem threshold_boundary_witness :
    includeCond ⟨2, some ["a"], some ["c"]⟩ ⟨1, some ["a", "b"], some ["c", "d"]⟩ = true ∧
    includeCond ⟨2, some ["a"], some ["c"]⟩ ⟨1, some ["a", "b", "c"], some ["c", "d", "e"]⟩
      = false :=
  ⟨threshold_boundary.1 ⟨2, some ["a"], some ["c"]⟩ ⟨1, some ["a", "b"], some ["c", "d"]⟩
      (by decide) (by simp [scoreFor, fracScore]; norm_num),
    threshold_boundary.2.1 ⟨2, some ["a"], some ["c"]⟩
      ⟨1, some ["a", "b", "c"], some ["c", "d", "e"]⟩
      (by simp [scoreFor, fracScore]; norm_num)⟩

/-! ## C3: dismissing an already-dismissed candidate -/

/-- C3 counterexample: with (1, 2) already in `dismissed_matches`, a
second dismiss of candidate 2 by subject 1 hits the duplicate-key
failure of the `INSERT INTO dismissed_matches` and answers HTTP 500 — an
error, not the claimed no-op success (204). -/
theorem dismiss_again_errors :
    DismissMatchHandler ⟨[], [], [], [], [(1, 2)], [], []⟩ 1 2 =
      (500, ⟨[], [], [], [], [(1, 2)], [], []⟩) ∧
    (DismissMatchHandler ⟨[], [], [], [], [(1, 2)], [], []⟩ 1 2).1 ≠ 204 := by
  constructor
  · decide
  · decide

/-- C3 (amended): dismissing an already-dismissed candidate is not an
idempotent no-op success: the duplicate insert into the dismissal set
fails, the handler answers HTTP 500, and the transaction rolls back
leaving the state unchanged. -/
theorem dismiss_already_dismissed (st : State) (uid targetID : Nat)
    (h : (uid, targetID) ∈ st.dismissed) :
    DismissMatchHandler st uid targetID = (500, st) := by
  unfold DismissMatchHandler
  rw [if_pos h]

/-- C3 witness: the amended theorem applied to a concrete state with
(7, 9) already dismissed. -/
theorem dismiss_already_dismissed_witness :
    DismissMatchHandler ⟨[], [], [], [], [(7, 9)], [], []⟩ 7 9 =
      (500, ⟨[], [], [], [], [(7, 9)], [], []⟩) :=
  dismiss_already_dismissed ⟨[], [], [], [], [(7, 9)], [], []⟩ 7 9 (by decide)

/-! ## C9: dismissing an absent candidate -/

/-- C9 counterexample: candidate 4 is not in subject 3's stored
candidate set, yet the dismiss does not answer 404 — the pair is already
in the dismissal set, so the insert fails first and the handler answers
500. -/
theorem dismiss_absent_not_always_404 :
    (⟨[], [], [], [], [(3, 4)], [], []⟩ : State).temp_matches.filter
        (fun m => m.user_id == 3 && m.match_id == 4) = [] ∧
    (DismissMatchHandler ⟨[], [], [], [], [(3, 4)], [], []⟩ 3 4).1 ≠ 404 := by
  constructor
  · decide
  · decide

/-- C9 (amended): if the candidate is not in the subject's stored
candidate set and the pair is not already in the dismissal set, the
dismiss answers 404 and the whole transaction is rolled back: the state
is unchanged, so no dismissal record is persisted. -/
theorem dismiss_absent_404 (st : State) (uid targetID : Nat)
    (hnd : (uid, targetID) ∉ st.dismissed)
    (habs : st.temp_matches.any (fun m => m.user_id == uid && m.match_id == targetID) = false) :
    DismissMatchHandler st uid targetID = (404, st) := by
  unfold DismissMatchHandler
  rw [if_neg hnd, habs]
  simp

/-- C9 witness: the amended theorem applied to a state whose only stored
row is for a different candidate. -/
theorem dismiss_absent_404_witness :
    DismissMatchHandler ⟨[], [], [], [], [], [], [⟨3, 5, 42⟩]⟩ 3 4 =
      (404, ⟨[], [], [], [], [], [], [⟨3, 5, 42⟩]⟩) :=
  dismiss_absent_404 ⟨[], [], [], [], [], [], [⟨3, 5, 42⟩]⟩ 3 4 (by decide) (by decide)

/-! ## C7: the budget-fit factor rewards a missing budget -/

/-- C7 counterexample: with `amount_offered = 50000` and
`budget_requested` unset (SQL `NULL`, coalesced to 0), the
`budget_score` of `GetPotentialMatchesQuery` is 100, not the claimed
0. -/
theorem budget_score_rewards_missing :
    budget_score (some 50000) none ≠ some 0 ∧
    budget_score (some 50000) none = some 100 := by
  constructor
  · decide
  · decide

/-- C7 (amended): with a nonnegative `amount_offered`, the budget factor
is 100 whenever `amount_offered >= budget_requested` — including
whenever `budget_requested` is 0 or unset, since both values are
coalesced to 0 before the comparison, so missing budget information
receives the full budget score — and is
`amount_offered / budget_requested * 100` exactly when
`amount_offered < budget_requested`. -/
theorem budget_score_cases (amount_offered budget_requested : Option ℚ)
    (hnn : 0 ≤ amount_offered.getD 0) :
    (budget_requested.getD 0 = 0 →
      budget_score amount_offered budget_requested = some 100) ∧
    (budget_requested.getD 0 ≤ amount_offered.getD 0 →
      budget_score amount_offered budget_requested = some 100) ∧
    (amount_offered.getD 0 < budget_requested.getD 0 →
      budget_score amount_offered budget_requested =
        some (amount_offered.getD 0 / budget_requested.getD 0 * 100)) := by
  refine ⟨?_, ?_, ?_⟩
  · intro h0
    unfold budget_score
    rw [if_pos (show budget_requested.getD 0 ≤ amount_offered.getD 0 by rw [h0]; exact hnn)]
  · intro hle
    unfold budget_score
    rw [if_pos hle]
  · intro hlt
    unfold budget_score
    rw [if_neg (not_le.mpr hlt), if_neg (by intro h0; rw [h0] at hlt; exact absurd hnn (not_le.mpr hlt))]

/-- C7 witness: the amended theorem applied with amount 50000 and an
unset budget — the factor evaluates to 100. -/
theorem budget_score_cases_witness :
    budget_score (some 50000) none = some 100 :=
  (budget_score_cases (some 50000) none (by norm_num)).1 (by norm_num)

/-! ## C10: duplicate connections are rejected with Conflict -/

/-- Two `connections` rows link the same unordered pair of users. -/
def sameUnorderedPair (c d : Nat × Nat) : Prop :=
  (c.1 = d.1 ∧ c.2 = d.2) ∨ (c.1 = d.2 ∧ c.2 = d.1)

/-- The Connection Ledger never holds two rows for the same unordered
pair. -/
def NoDupUnorderedPairs (l : List (Nat × Nat)) : Prop :=
  l.Pairwise (fun c d => ¬ sameUnorderedPair c d)

/-- C10: if a connection between the two users already exists in either
direction, `CreateConnectionHandler` answers 409 Conflict and leaves the
state unchanged (no row inserted); consequently a ledger without
duplicate unordered pairs never acquires one through the handler. -/
theorem duplicate_connection_conflict :
    (∀ (st : State) (uid targetID : Nat), connectedEither st uid targetID →
      CreateConnectionHandler st uid targetID = (409, st)) ∧
    (∀ (st : State) (uid targetID : Nat), NoDupUnorderedPairs st.connections →
      NoDupUnorderedPairs ((CreateConnectionHandler st uid targetID).2).connections) := by
  constructor
  · intro st uid targetID h
    unfold CreateConnectionHandler
    rw [if_pos h]
  · intro st uid targetID h
    unfold CreateConnectionHandler
    by_cases hc : connectedEither st uid targetID
    · rw [if_pos hc]
      exact h
    · rw [if_neg hc]
      simp only [NoDupUnorderedPairs, List.pairwise_append]
      refine ⟨h, List.pairwise_singleton _ _, ?_⟩
      intro c hcmem d hdmem hsame
      rw [List.mem_singleton] at hdmem
      subst hdmem
      exact hc ⟨c, hcmem, by simpa [sameUnorderedPair] using hsame⟩

/-- C10 witness: the Conflict branch applied to a state already holding
the connection (1, 2), attempted again in the reverse direction. -/
theorem duplicate_connection_conflict_witness :
    CreateConnectionHandler ⟨[], [], [], [], [], [(1, 2)], []⟩ 2 1 =
      (409, ⟨[], [], [], [], [], [(1, 2)], []⟩) :=
  duplicate_connection_conflict.1 ⟨[], [], [], [], [], [(1, 2)], []⟩ 2 1 (by decide)

/-! ## C4: the exclusion invariant -/

/-- One operation preserves the exclusion invariant: the recompute query
filters dismissed and connected candidates out, the dismiss handler
removes the row it records a dismissal for, and the connect handler
removes both directions of the pair it links. -/
theorem inv_applyOp (st : State) (op : Op) (h : Inv st) : Inv (applyOp st op) := by
  cases op with
  | recompute uid userRole =>
      intro m hm
      have hrow := of_mem_computeRows
        (show m ∈ computeRows st uid userRole from hm)
      obtain ⟨huid, hdis, hconn, _⟩ := hrow
      constructor
      · show (m.user_id, m.match_id) ∉ st.dismissed
        rw [huid]
        exact hdis
      · show ¬ connectedEither _ m.user_id m.match_id
        simpa [connectedEither, applyOp, CalculateAndStoreMatches, huid] using hconn
  | dismiss uid targetID =>
      simp only [applyOp]
      unfold DismissMatchHandler
      split_ifs with h1 h2
      · exact h
      · intro m hm
        have hm' : m ∈ st.temp_matches.filter
            (fun m => !(m.user_id == uid && m.match_id == targetID)) := hm
        rw [List.mem_filter] at hm'
        obtain ⟨hold, hne⟩ := hm'
        have hInv := h m hold
        constructor
        · intro hmem
          rcases List.mem_cons.mp hmem with heq | hmemold
          · have hu : m.user_id = uid := congrArg Prod.fst heq
            have ht : m.match_id = targetID := congrArg Prod.snd heq
            simp [hu, ht] at hne
          · exact hInv.1 hmemold
        · simpa [connectedEither] using hInv.2
      · exact h
  | connect uid targetID =>
      simp only [applyOp]
      unfold CreateConnectionHandler
      split_ifs with h1
      · exact h
      · intro m hm
        have hm' : m ∈ st.temp_matches.filter
            (fun m => !((m.user_id == uid && m.match_id == targetID) ||
                        (m.user_id == targetID && m.match_id == uid))) := hm
        rw [List.mem_filter] at hm'
        obtain ⟨hold, hne⟩ := hm'
        have hInv := h m hold
        simp only [Bool.not_eq_true', Bool.or_eq_false_iff, Bool.and_eq_false_iff,
          beq_eq_false_iff_ne, ne_eq] at hne
        constructor
        · exact hInv.1
        · intro hce
          obtain ⟨c, hcmem, hcp⟩ := hce
          rcases List.mem_append.mp hcmem with hcold | hcnew
          · exact hInv.2 ⟨c, hcold, hcp⟩
          · rw [List.mem_singleton] at hcnew
            subst hcnew
            rcases hcp with ⟨ha, hb⟩ | ⟨ha, hb⟩
            · rcases hne.1 with hx | hx
              · exact hx ha.symm
              · exact hx hb.symm
            · rcases hne.2 with hx | hx
              · exact hx hb.symm
              · exact hx ha.symm

/-- C4: after any sequence of recompute, dismiss, and connect
operations starting from a state satisfying the exclusion invariant, no
subject's stored candidate set contains a candidate that subject has
dismissed or is connected to in either direction — a connect removes
the pair from both subjects' sets, and a later recompute never
reintroduces a dismissed or connected candidate. -/
theorem exclusion_invariant (ops : List Op) (st : State) (h : Inv st) :
    Inv (applyOps st ops) := by
  induction ops generalizing st with
  | nil => exact h
  | cons op rest ih => exact ih (applyOp st op) (inv_applyOp st op h)

/-- C4 witness: the invariant theorem applied to a concrete run — two
active opposite-role users with overlapping profiles, a recompute for
subject 1, a connect of 1 and 2, and a recompute again — starting from
the empty (trivially invariant) state. -/
theorem exclusion_invariant_witness :
    Inv (applyOps
      ⟨[⟨1, "provider", "active"⟩, ⟨2, "recipient", "active"⟩],
       [⟨1, some ["a"], some ["c"]⟩, ⟨2, some ["a"], some ["c"]⟩],
       [1], [2], [], [], []⟩
      [Op.recompute 1 "provider", Op.connect 1 2, Op.recompute 1 "provider"]) :=
  exclusion_invariant [Op.recompute 1 "provider", Op.connect 1 2, Op.recompute 1 "provider"]
    ⟨[⟨1, "provider", "active"⟩, ⟨2, "recipient", "active"⟩],
     [⟨1, some ["a"], some ["c"]⟩, ⟨2, some ["a"], some ["c"]⟩],
     [1], [2], [], [], []⟩
    (by intro m hm; simp at hm)

/-! ## C5: the sector-overlap factor of the five-factor query -/

/-- The deduplicated common-element count of the SQL
`ARRAY(SELECT UNNEST(a) INTERSECT SELECT UNNEST(b))` is the cardinality
of the set intersection. -/
theorem length_dedup_filter (a b : List String) :
    (a.dedup.filter (fun x => decide (x ∈ b))).length = (a.toFinset ∩ b.toFinset).card := by
  have hnd : (a.dedup.filter (fun x => decide (x ∈ b))).Nodup := a.nodup_dedup.filter _
  rw [← List.toFinset_card_of_nodup hnd]
  congr 1
  ext x
  simp [List.mem_filter]

/-- C5: for duplicate-free sector arrays, the `sector_score` of
`GetPotentialMatchesQuery` equals the spec formula
`card(A ∩ B) / max (card A) (card B) * 100` with 0 for an empty (or
`NULL`) set on either side; the `target_group_score` is the same
expression applied to the target-group arrays; and in the composite the
sector factor carries weight 0.3 (30%). -/
theorem sector_overlap_factor :
    (∀ a b : List String, a.Nodup → b.Nodup →
      sector_score (some a) (some b) = specOverlapFactor a.toFinset b.toFinset) ∧
    (∀ x, sector_score none x = 0 ∧ sector_score x none = 0) ∧
    (∀ a b, target_group_score a b = sector_score a b) ∧
    (∀ ss tg bs ts sg : ℚ,
      match_score_composite ss tg bs ts sg = (3 * ss + 3 * tg + 2 * bs + ts + sg) / 10) := by
  refine ⟨?_, ?_, ?_, ?_⟩
  · intro a b ha hb
    unfold sector_score specOverlapFactor
    show (if (a.any fun x => decide (x ∈ b)) = true then
        (((a.dedup.filter (fun x => decide (x ∈ b))).length : ℚ) /
          ((max a.length b.length : Nat) : ℚ)) * 100
      else 0) = _
    by_cases hov : a.any (fun x => decide (x ∈ b)) = true
    · rw [if_pos hov]
      obtain ⟨x, hxa, hxb⟩ := List.any_eq_true.mp hov
      have hxb' : x ∈ b := of_decide_eq_true hxb
      have hane : a.toFinset ≠ ∅ := Finset.ne_empty_of_mem (List.mem_toFinset.mpr hxa)
      have hbne : b.toFinset ≠ ∅ := Finset.ne_empty_of_mem (List.mem_toFinset.mpr hxb')
      rw [if_neg (by push_neg; exact ⟨hane, hbne⟩)]
      rw [length_dedup_filter a b, List.toFinset_card_of_nodup ha,
        List.toFinset_card_of_nodup hb]
    · rw [if_neg hov]
      have hint : a.toFinset ∩ b.toFinset = ∅ := by
        ext x
        simp only [Finset.mem_inter, List.mem_toFinset, Finset.not_mem_empty, iff_false,
          not_and]
        intro hxa hxb
        exact hov (List.any_eq_true.mpr ⟨x, hxa, decide_eq_true hxb⟩)
      by_cases hE : a.toFinset = ∅ ∨ b.toFinset = ∅
      · rw [if_pos hE]
      · rw [if_neg hE, hint]
        simp
  · intro x
    exact ⟨by cases x <;> rfl, by cases x <;> rfl⟩
  · intro a b
    cases a <;> cases b <;> rfl
  · intro ss tg bs ts sg
    unfold match_score_composite
    ring

/-- C5 witness: the sector factor of a one-sector provider against a
two-sector recipient sharing one sector equals the spec formula (both
sides evaluate to 50). -/
theorem sector_overlap_factor_witness :
    sector_score (some ["Education"]) (some ["Education", "Health"]) =
      specOverlapFactor (["Education"].toFinset) (["Education", "Health"].toFinset) :=
  sector_overlap_factor.1 ["Education"] ["Education", "Health"] (by decide) (by decide)

/-! ## C8: listing order -/

/-- C8 counterexample: `GetStoredMatches` orders by `match_score DESC`
alone, so with two stored rows of equal score 50 for subject 1 the
result listing candidate 7 before candidate 3 is a possible output, yet
it violates the claimed ascending-candidate-id tie-break. -/
theorem listing_ties_not_by_id :
    GetStoredMatchesResult ⟨[], [], [], [], [], [], [⟨1, 7, 50⟩, ⟨1, 3, 50⟩]⟩ 1
      [⟨1, 7, 50⟩, ⟨1, 3, 50⟩] ∧
    ¬ specListingOrder [⟨1, 7, 50⟩, ⟨1, 3, 50⟩] := by
  refine ⟨⟨?_, ?_⟩, ?_⟩
  · decide
  · decide
  · unfold specListingOrder
    decide

/-- C8 (amended): a listing is the subject's stored rows in
nonincreasing score order; the score sequence is uniquely determined
(any two valid outputs list the same scores in the same order), but the
relative order of equal-score candidates is not specified — there is no
candidate-id tie-break. -/
theorem listing_sorted_by_score (st : State) (uid : Nat) (out out2 : List MatchRow)
    (h1 : GetStoredMatchesResult st uid out) (h2 : GetStoredMatchesResult st uid out2) :
    (out.map MatchRow.match_score).Sorted (fun a b => b ≤ a) ∧
    out.map MatchRow.match_score = out2.map MatchRow.match_score := by
  obtain ⟨hp1, hs1⟩ := h1
  obtain ⟨hp2, hs2⟩ := h2
  have hm1 : (out.map MatchRow.match_score).Sorted (fun a b => b ≤ a) :=
    List.pairwise_map.mpr hs1
  have hm2 : (out2.map MatchRow.match_score).Sorted (fun a b => b ≤ a) :=
    List.pairwise_map.mpr hs2
  have hperm : (out.map MatchRow.match_score).Perm (out2.map MatchRow.match_score) :=
    (hp1.trans hp2.symm).map _
  haveI : IsAntisymm ℚ (fun a b => b ≤ a) := ⟨fun a b hab hba => le_antisymm hba hab⟩
  exact ⟨hm1, List.eq_of_perm_of_sorted hperm hm1 hm2⟩

/-- C8 witness: the amended theorem applied to a one-row stored set. -/
theorem listing_sorted_by_score_witness :
    ((([⟨1, 3, 50⟩] : List MatchRow).map MatchRow.match_score).Sorted (fun a b => b ≤ a)) ∧
    ([⟨1, 3, 50⟩] : List MatchRow).map MatchRow.match_score =
      ([⟨1, 3, 50⟩] : List MatchRow).map MatchRow.match_score :=
  listing_sorted_by_score ⟨[], [], [], [], [], [], [⟨1, 3, 50⟩]⟩ 1 [⟨1, 3, 50⟩] [⟨1, 3, 50⟩]
    ⟨by decide, by decide⟩ ⟨by decide, by decide⟩

end Matcherator
